import Mathlib

/-
Shallow embedding of the httplog response-writer decorator
(staging/src/k8s.io/apiserver/pkg/server/httplog/httplog.go).

The Go respLogger struct is modelled as a Lean structure parametric in the
type W of underlying response writers; writer identity becomes value
equality at W.  External effects (forwarding writes to the underlying
writer, the klog sink, runtime.Stack) are modelled by explicit parameters:
the captured stack text is passed in where the Go code calls runtime.Stack,
and the underlying Hijack result is passed in where the Go code delegates.
Go int is modelled as Int; durations as Nat nanoseconds.
-/

/-- A value appearing in the flat key/value list handed to the structured
log sink (Go interface value positions in keysAndValues). -/
inductive LogValue where
  | str : String → LogValue
  | int : Int → LogValue
  | bool : Bool → LogValue
  | dur : Nat → LogValue
deriving DecidableEq, Repr

/-- The request fields that respLogger.Log reads directly from rl.req. -/
structure ReqData where
  method : String
  requestURI : String
  userAgent : String
  remoteAddr : String
deriving DecidableEq, Repr

/-- The respLogger struct, field for field.  addedInfo is the
strings.Builder contents; addedKeyValuePairs is the flat alternating
key/value list that Go keeps as a single slice of interface values. -/
structure RespLogger (W : Type) where
  hijacked : Bool
  statusRecorded : Bool
  status : Int
  statusStack : String
  addedInfo : String
  addedKeyValuePairs : List LogValue
  startTime : Nat
  captureErrorOutput : Bool
  req : ReqData
  w : W
  logStacktracePred : Int → Bool

/-- DefaultStacktracePred: (status < StatusOK or status >= StatusInternalServerError)
and status != StatusSwitchingProtocols, with the http constants inlined. -/
def DefaultStacktracePred (status : Int) : Bool :=
  (decide (status < 200) || decide (status ≥ 500)) && decide (status ≠ 101)

/-- StatusIsNot builds a membership set from the given statuses and returns
the predicate that is true exactly off that set. -/
def StatusIsNot (statuses : List Int) : Int → Bool :=
  fun status => !(statuses.contains status)

/-- respLogger.Unwrap returns the wrapped writer. -/
def RespLogger.unwrap (rl : RespLogger W) : W :=
  rl.w

/-- respLogger.StacktraceWhen replaces the stacktrace predicate. -/
def RespLogger.stacktraceWhen (rl : RespLogger W) (pred : Int → Bool) : RespLogger W :=
  { rl with logStacktracePred := pred }

/-- respLogger.Addf appends a newline and then the formatted line to the
addedInfo builder; the line arrives already formatted. -/
def RespLogger.addf (rl : RespLogger W) (line : String) : RespLogger W :=
  { rl with addedInfo := rl.addedInfo ++ "\n" ++ line }

/-- respLogger.AddKeyValue appends the key and then the value to the flat
key/value slice. -/
def RespLogger.addKeyValue (rl : RespLogger W) (key : String) (value : LogValue) : RespLogger W :=
  { rl with addedKeyValuePairs := rl.addedKeyValuePairs ++ [LogValue.str key, value] }

/-- Abstraction of the Go %q verb used in respLogger.Write: wraps the
written bytes in double quotes.  Only the shape of the annotation text
matters to the claims, not the exact escaping. -/
def goQuote (s : String) : String :=
  "\"" ++ s ++ "\""

/-- respLogger.recordStatus: unconditionally stores the status and marks it
recorded, then either captures the current stack (passed in for
runtime.Stack) and sets captureErrorOutput, or clears statusStack.  Note
that the else branch does not clear captureErrorOutput. -/
def RespLogger.recordStatus (rl : RespLogger W) (status : Int) (stack : String) : RespLogger W :=
  let rl := { rl with status := status, statusRecorded := true }
  if rl.logStacktracePred status then
    { rl with statusStack := "\n" ++ stack, captureErrorOutput := true }
  else
    { rl with statusStack := "" }

/-- respLogger.WriteHeader records the status (the forwarding of the
status to the underlying writer is an external effect). -/
def RespLogger.writeHeader (rl : RespLogger W) (status : Int) (stack : String) : RespLogger W :=
  rl.recordStatus status stack

/-- respLogger.Write: records status 200 if none recorded yet, then if
captureErrorOutput is set echoes the written bytes into addedInfo; the
actual byte write to the underlying writer is an external effect. -/
def RespLogger.write (rl : RespLogger W) (b : String) (stack : String) : RespLogger W :=
  let rl := if rl.statusRecorded then rl else rl.recordStatus 200 stack
  if rl.captureErrorOutput then
    rl.addf ("logging error output: " ++ goQuote b ++ "\n")
  else
    rl

/-- respLogger.Hijack sets the hijacked flag and then delegates to the
underlying writer; the delegation result is passed in and returned
unchanged, and does not influence the state update. -/
def RespLogger.hijack (rl : RespLogger W) (res : Except String Unit) :
    RespLogger W × Except String Unit :=
  ({ rl with hijacked := true }, res)

/-- newLoggedWithStartTime constructs the decorator with Go zero values for
every field not set explicitly and DefaultStacktracePred as predicate. -/
def newLoggedWithStartTime (req : ReqData) (w : W) (startTime : Nat) : RespLogger W :=
  { hijacked := false
    statusRecorded := false
    status := 0
    statusStack := ""
    addedInfo := ""
    addedKeyValuePairs := []
    startTime := startTime
    captureErrorOutput := false
    req := req
    w := w
    logStacktracePred := DefaultStacktracePred }

/-- The fixed head of every log record: the six request-level pairs in
emission order, reading URI, user agent and source address from the
request and taking the collaborator-derived verb, latency and audit id as
inputs. -/
def logHead (rl : RespLogger W) (verb : String) (latency : Nat) (auditID : String) :
    List LogValue :=
  [LogValue.str "verb", LogValue.str verb,
   LogValue.str "URI", LogValue.str rl.req.requestURI,
   LogValue.str "latency", LogValue.dur latency,
   LogValue.str "userAgent", LogValue.str rl.req.userAgent,
   LogValue.str "audit-ID", LogValue.str auditID,
   LogValue.str "srcIP", LogValue.str rl.req.remoteAddr]

/-- respLogger.Log, restricted to the record it assembles: the six request
pairs, the accumulated key/value pairs, then either the hijacked marker or
the response status with optional statusStack and addedInfo.  The verb
refinement, latency computation and audit id lookup are collaborator
calls outside this package and enter as parameters. -/
def RespLogger.logRecord (rl : RespLogger W) (verb : String) (latency : Nat)
    (auditID : String) : List LogValue :=
  let keysAndValues := logHead rl verb latency auditID
  let keysAndValues := keysAndValues ++ rl.addedKeyValuePairs
  if rl.hijacked then
    keysAndValues ++ [LogValue.str "hijacked", LogValue.bool true]
  else
    let keysAndValues := keysAndValues ++ [LogValue.str "resp", LogValue.int rl.status]
    let keysAndValues :=
      if rl.statusStack.length > 0 then
        keysAndValues ++ [LogValue.str "statusStack", LogValue.str rl.statusStack]
      else keysAndValues
    if rl.addedInfo.length > 0 then
      keysAndValues ++ [LogValue.str "addedInfo", LogValue.str rl.addedInfo]
    else keysAndValues

/-- One request-scoped context: the request data plus the context slot that
may carry an attached decorator. -/
structure Request (W : Type) where
  data : ReqData
  slot : Option (RespLogger W)

/-- respLoggerFromRequest reads the context slot. -/
def respLoggerFromRequest (req : Request W) : Option (RespLogger W) :=
  req.slot

/-- Unlogged returns the original pre-decoration writer when a decorator is
attached, else the fallback writer unchanged. -/
def Unlogged (req : Request W) (w : W) : W :=
  match respLoggerFromRequest req with
  | some rl => rl.w
  | none => w

/-- The installation step of WithLogging for one request: panic (modelled
as Except.error with the Go panic message) when a decorator is already
attached, otherwise construct the decorator with the supplied start time,
install the predicate, and attach it to the context slot. -/
def withLoggingInstall (req : Request W) (w : W) (pred : Int → Bool) (startTime : Nat) :
    Except String (Request W × RespLogger W) :=
  match respLoggerFromRequest req with
  | some _ => Except.error ("multiple WithLogging calls!")
  | none =>
    let rl := (newLoggedWithStartTime req.data w startTime).stacktraceWhen pred
    Except.ok ({ req with slot := some rl }, rl)

/-- The decorator operations that mutate a respLogger, as one step type:
the two writer-interface calls, hijacking (carrying the underlying
delegation result), the two annotation calls, and predicate replacement. -/
inductive Op where
  | writeHeader (status : Int) (stack : String)
  | write (b : String) (stack : String)
  | hijack (res : Except String Unit)
  | addf (line : String)
  | addKeyValue (key : String) (value : LogValue)
  | stacktraceWhen (pred : Int → Bool)

/-- Apply one decorator operation to the state. -/
def applyOp (rl : RespLogger W) : Op → RespLogger W
  | Op.writeHeader status stack => rl.writeHeader status stack
  | Op.write b stack => rl.write b stack
  | Op.hijack res => (rl.hijack res).1
  | Op.addf line => rl.addf line
  | Op.addKeyValue key value => rl.addKeyValue key value
  | Op.stacktraceWhen pred => rl.stacktraceWhen pred

/-- Apply a sequence of decorator operations left to right. -/
def applyOps (rl : RespLogger W) (ops : List Op) : RespLogger W :=
  ops.foldl applyOp rl

/-- A concrete request used by closed witness statements. -/
def sampleReq : ReqData :=
  { method := "GET", requestURI := "/api", userAgent := "agent", remoteAddr := "1.2.3.4" }

/-- Helper: no decorator operation resets captureErrorOutput once set. -/
theorem applyOp_captureErrorOutput_mono (rl : RespLogger W) (op : Op)
    (h : rl.captureErrorOutput = true) : (applyOp rl op).captureErrorOutput = true := by
  cases op <;>
    simp only [applyOp, RespLogger.writeHeader, RespLogger.recordStatus, RespLogger.write,
      RespLogger.hijack, RespLogger.addf, RespLogger.addKeyValue, RespLogger.stacktraceWhen] <;>
    (try split_ifs) <;> simp_all

/-- Helper: monotonicity of captureErrorOutput over operation sequences. -/
theorem applyOps_captureErrorOutput_mono (rl : RespLogger W) (ops : List Op)
    (h : rl.captureErrorOutput = true) : (applyOps rl ops).captureErrorOutput = true := by
  induction ops generalizing rl with
  | nil => exact h
  | cons op ops ih => exact ih _ (applyOp_captureErrorOutput_mono rl op h)

/-- Helper: one step preserves the invariant that a non-empty statusStack
forces captureErrorOutput. -/
theorem applyOp_stack_implies_capture (rl : RespLogger W) (op : Op)
    (h : rl.statusStack ≠ "" → rl.captureErrorOutput = true) :
    (applyOp rl op).statusStack ≠ "" → (applyOp rl op).captureErrorOutput = true := by
  cases op <;>
    simp only [applyOp, RespLogger.writeHeader, RespLogger.recordStatus, RespLogger.write,
      RespLogger.hijack, RespLogger.addf, RespLogger.addKeyValue, RespLogger.stacktraceWhen] <;>
    (try split_ifs) <;> simp_all

/-- Helper: the statusStack-forces-captureErrorOutput invariant is stable
under any operation sequence. -/
theorem applyOps_stack_implies_capture (rl : RespLogger W) (ops : List Op)
    (h : rl.statusStack ≠ "" → rl.captureErrorOutput = true) :
    (applyOps rl ops).statusStack ≠ "" → (applyOps rl ops).captureErrorOutput = true := by
  induction ops generalizing rl with
  | nil => exact h
  | cons op ops ih => exact ih _ (applyOp_stack_implies_capture rl op h)

/-- C4: DefaultStacktracePred is true exactly when the status is below 200
or at least 500 and is not 101; in particular it is true at 100 and 500 and
false at 101, 200, 204, 302, 400 and 404. -/
theorem defaultStacktracePred_spec :
    (∀ status : Int, DefaultStacktracePred status = true ↔
      ((status < 200 ∨ 500 ≤ status) ∧ status ≠ 101)) ∧
    DefaultStacktracePred 100 = true ∧ DefaultStacktracePred 500 = true ∧
    DefaultStacktracePred 101 = false ∧ DefaultStacktracePred 200 = false ∧
    DefaultStacktracePred 204 = false ∧ DefaultStacktracePred 302 = false ∧
    DefaultStacktracePred 400 = false ∧ DefaultStacktracePred 404 = false := by
  refine ⟨fun status => ?_, by decide, by decide, by decide, by decide, by decide,
    by decide, by decide, by decide⟩
  simp [DefaultStacktracePred]

/-- Witness for C4 at the concrete status 100. -/
theorem defaultStacktracePred_spec_witness :
    DefaultStacktracePred 100 = true ↔ (((100 : Int) < 200 ∨ 500 ≤ (100 : Int)) ∧ (100 : Int) ≠ 101) :=
  defaultStacktracePred_spec.1 100

/-- C5: StatusIsNot excludeList is true exactly for statuses not in the
exclude list, is constantly true for the empty list, and depends only on
list membership, so order and duplicates in the exclude list are
irrelevant. -/
theorem statusIsNot_spec :
    (∀ (statuses : List Int) (status : Int),
      StatusIsNot statuses status = true ↔ status ∉ statuses) ∧
    (∀ status : Int, StatusIsNot [] status = true) ∧
    (∀ (l1 l2 : List Int) (status : Int), (∀ x, x ∈ l1 ↔ x ∈ l2) →
      StatusIsNot l1 status = StatusIsNot l2 status) := by
  refine ⟨fun statuses status => ?_, fun status => rfl, fun l1 l2 status h => ?_⟩
  · simp [StatusIsNot]
  · simp only [StatusIsNot, List.elem_eq_mem]
    rw [decide_eq_decide.mpr (h status)]

/-- Witness for C5: a duplicated exclude entry does not change the result,
shown at the exclude lists with one and two copies of 200. -/
theorem statusIsNot_spec_witness :
    StatusIsNot [200] 200 = StatusIsNot [200, 200] 200 ∧ StatusIsNot [200] 200 = false :=
  ⟨statusIsNot_spec.2.2 [200] [200, 200] 200 (by intro x; simp), by decide⟩

/-- C3: a fresh decorator records status 200 on a Write that precedes any
WriteHeader, and after WriteHeader 403 a subsequent Write leaves the
recorded status at 403. -/
theorem write_default_and_explicit_status (W : Type) (req : ReqData) (w : W)
    (t : Nat) (b s1 s2 s3 : String) :
    (((newLoggedWithStartTime req w t).write b s1).status = 200) ∧
    ((((newLoggedWithStartTime req w t).writeHeader 403 s2).write b s3).status = 403) := by
  constructor <;> rfl

/-- C1 counterexample: the claim that the recorded status stays at the
first status set fails on the code.  After WriteHeader 500 followed by
WriteHeader 200 the recorded status is 200, not the first status 500,
because recordStatus overwrites unconditionally on every WriteHeader. -/
theorem secondWriteHeader_overwrites_status :
    (((newLoggedWithStartTime sampleReq (0 : Nat) 0).writeHeader 500 "trace").writeHeader
        200 "trace").status = 200 ∧
    ¬ (((newLoggedWithStartTime sampleReq (0 : Nat) 0).writeHeader 500 "trace").writeHeader
        200 "trace").status = 500 := by
  constructor
  · rfl
  · decide

/-- C1 amended: the recorded status equals the status of the most recent
status-recording call: every WriteHeader overwrites the recorded status
with its argument, while Write never changes an already-recorded status. -/
theorem recordedStatus_lastWriteHeaderWins (W : Type) (rl : RespLogger W)
    (status : Int) (stack b stack2 : String) :
    ((rl.writeHeader status stack).status = status ∧
      (rl.writeHeader status stack).statusRecorded = true) ∧
    (rl.statusRecorded = true →
      (rl.write b stack2).status = rl.status ∧
      (rl.write b stack2).statusRecorded = true) := by
  constructor
  · simp only [RespLogger.writeHeader, RespLogger.recordStatus]
    split_ifs <;> simp
  · intro h
    simp only [RespLogger.write, h, if_true]
    split_ifs <;> simp [RespLogger.addf, h]

/-- Witness for the amended C1 at a decorator with status 403 recorded. -/
theorem recordedStatus_lastWriteHeaderWins_witness :
    (((newLoggedWithStartTime sampleReq (0 : Nat) 0).writeHeader 403 "s").write "b" "s2").status =
      ((newLoggedWithStartTime sampleReq (0 : Nat) 0).writeHeader 403 "s").status :=
  ((recordedStatus_lastWriteHeaderWins Nat
      ((newLoggedWithStartTime sampleReq (0 : Nat) 0).writeHeader 403 "s")
      403 "s" "b" "s2").2 (by rfl)).1

/-- C2 counterexample: captureErrorOutput true with empty statusStack is
reachable, refuting the claimed equivalence.  After WriteHeader 500 then
WriteHeader 200 under the default predicate, recordStatus cleared
statusStack on the non-matching 200 but left captureErrorOutput set. -/
theorem captureErrorOutput_without_statusStack :
    (((newLoggedWithStartTime sampleReq (0 : Nat) 0).writeHeader 500 "trace").writeHeader
        200 "trace").captureErrorOutput = true ∧
    (((newLoggedWithStartTime sampleReq (0 : Nat) 0).writeHeader 500 "trace").writeHeader
        200 "trace").statusStack = "" := by
  constructor <;> rfl

/-- C2 amended: over every operation sequence from a freshly constructed
decorator, a non-empty statusStack forces captureErrorOutput to be true,
and captureErrorOutput is never reset by any operation once set; the
converse implication fails, as a later non-matching WriteHeader clears
statusStack without clearing captureErrorOutput. -/
theorem captureBody_statusStack_relation (W : Type) (req : ReqData) (w : W) (t : Nat)
    (pred : Int → Bool) (ops : List Op) (rl : RespLogger W) :
    ((applyOps ((newLoggedWithStartTime req w t).stacktraceWhen pred) ops).statusStack ≠ "" →
      (applyOps ((newLoggedWithStartTime req w t).stacktraceWhen pred) ops).captureErrorOutput
        = true) ∧
    (rl.captureErrorOutput = true → (applyOps rl ops).captureErrorOutput = true) := by
  constructor
  · exact applyOps_stack_implies_capture _ ops (fun hne => absurd rfl hne)
  · exact applyOps_captureErrorOutput_mono rl ops

/-- Witness for the amended C2 on the one-step sequence recording 500. -/
theorem captureBody_statusStack_relation_witness :
    (applyOps ((newLoggedWithStartTime sampleReq (0 : Nat) 0).stacktraceWhen
        DefaultStacktracePred) [Op.writeHeader 500 "s"]).captureErrorOutput = true ∧
    (applyOps ((newLoggedWithStartTime sampleReq (0 : Nat) 0).writeHeader 500 "s")
        [Op.addf "x"]).captureErrorOutput = true :=
  ⟨(captureBody_statusStack_relation Nat sampleReq 0 0 DefaultStacktracePred
      [Op.writeHeader 500 "s"]
      ((newLoggedWithStartTime sampleReq (0 : Nat) 0).writeHeader 500 "s")).1 (by decide),
   (captureBody_statusStack_relation Nat sampleReq 0 0 DefaultStacktracePred
      [Op.addf "x"]
      ((newLoggedWithStartTime sampleReq (0 : Nat) 0).writeHeader 500 "s")).2 (by rfl)⟩

/-- Helper: the Go emptiness test len > 0 on a String agrees with
inequality against the empty string. -/
theorem string_length_pos_iff (s : String) : 0 < s.length ↔ s ≠ "" := by
  rw [String.length, List.length_pos]
  constructor
  · intro h hs; subst hs; simp at h
  · intro h hd; exact h (by cases s; simp_all)

/-- Helper: the record a hijacked decorator assembles ends in the hijacked
marker after the head pairs and the annotation pairs. -/
theorem logRecord_of_hijacked (rl : RespLogger W) (verb : String) (latency : Nat)
    (auditID : String) (h : rl.hijacked = true) :
    rl.logRecord verb latency auditID =
      logHead rl verb latency auditID ++ rl.addedKeyValuePairs ++
        [LogValue.str "hijacked", LogValue.bool true] := by
  simp [RespLogger.logRecord, h]

/-- Helper: the record of a non-hijacked decorator carries the status group
with statusStack and addedInfo present exactly when non-empty. -/
theorem logRecord_of_not_hijacked (rl : RespLogger W) (verb : String) (latency : Nat)
    (auditID : String) (h : rl.hijacked = false) :
    rl.logRecord verb latency auditID =
      logHead rl verb latency auditID ++ rl.addedKeyValuePairs ++
        ([LogValue.str "resp", LogValue.int rl.status] ++
          (if rl.statusStack ≠ "" then
            [LogValue.str "statusStack", LogValue.str rl.statusStack] else []) ++
          (if rl.addedInfo ≠ "" then
            [LogValue.str "addedInfo", LogValue.str rl.addedInfo] else [])) := by
  simp only [RespLogger.logRecord, h, Bool.false_eq_true, if_false, gt_iff_lt,
    string_length_pos_iff]
  split_ifs <;> simp [List.append_assoc]

/-- C6: installing the logging middleware on a request that already carries
a decorator fails fast with the multiple-installation panic message, while
installation on an undecorated request succeeds; nesting two installations
makes the inner one fail. -/
theorem withLogging_double_install_fails (W : Type) (d : ReqData) (w w2 : W)
    (pred pred2 : Int → Bool) (t t2 : Nat) (rl : RespLogger W) :
    (withLoggingInstall { data := d, slot := some rl } w pred t =
      Except.error ("multiple WithLogging calls!")) ∧
    ((withLoggingInstall { data := d, slot := none } w pred t).isOk = true) ∧
    ((withLoggingInstall { data := d, slot := none } w pred t).bind
        (fun p => withLoggingInstall p.1 w2 pred2 t2) =
      Except.error ("multiple WithLogging calls!")) :=
  ⟨rfl, rfl, rfl⟩

/-- C7: Unlogged returns the pre-decoration writer stored in the attached
decorator, returns the fallback writer unchanged when no decorator is
attached, and after a middleware installation it recovers exactly the
writer the middleware wrapped. -/
theorem unlogged_returns_original_writer (W : Type) (d : ReqData) (rl : RespLogger W)
    (w fb : W) (pred : Int → Bool) (t : Nat) :
    (Unlogged { data := d, slot := some rl } fb = rl.w) ∧
    (Unlogged { data := d, slot := none } fb = fb) ∧
    ((withLoggingInstall { data := d, slot := none } w pred t).map
        (fun p => Unlogged p.1 fb) = Except.ok w) :=
  ⟨rfl, rfl, rfl⟩

/-- C8: the log record opens with the verb, URI, latency, userAgent,
audit-ID and srcIP pairs in that order, continues with the annotation
pairs in insertion order, and closes with exactly one alternative: the
hijacked marker when hijacked, else the status followed by statusStack
only when non-empty and addedInfo only when non-empty. -/
theorem logRecord_shape (W : Type) (rl : RespLogger W) (verb : String)
    (latency : Nat) (auditID : String) :
    (rl.hijacked = true →
      rl.logRecord verb latency auditID =
        logHead rl verb latency auditID ++ rl.addedKeyValuePairs ++
          [LogValue.str "hijacked", LogValue.bool true]) ∧
    (rl.hijacked = false →
      rl.logRecord verb latency auditID =
        logHead rl verb latency auditID ++ rl.addedKeyValuePairs ++
          ([LogValue.str "resp", LogValue.int rl.status] ++
            (if rl.statusStack ≠ "" then
              [LogValue.str "statusStack", LogValue.str rl.statusStack] else []) ++
            (if rl.addedInfo ≠ "" then
              [LogValue.str "addedInfo", LogValue.str rl.addedInfo] else []))) :=
  ⟨logRecord_of_hijacked rl verb latency auditID,
   logRecord_of_not_hijacked rl verb latency auditID⟩

/-- Witness for C8: the record of a hijacked fresh decorator ends in the
hijacked marker, and the record of a fresh non-hijacked decorator ends in
the bare status group. -/
theorem logRecord_shape_witness :
    (((newLoggedWithStartTime sampleReq (0 : Nat) 0).hijack (Except.ok ())).1.logRecord
        "GET" 5 "id" =
      logHead ((newLoggedWithStartTime sampleReq (0 : Nat) 0).hijack (Except.ok ())).1
          "GET" 5 "id" ++ [] ++ [LogValue.str "hijacked", LogValue.bool true]) ∧
    ((newLoggedWithStartTime sampleReq (0 : Nat) 0).logRecord "GET" 5 "id" =
      logHead (newLoggedWithStartTime sampleReq (0 : Nat) 0) "GET" 5 "id" ++ [] ++
        ([LogValue.str "resp", LogValue.int 0] ++ [] ++ [])) := by
  constructor
  · have h := (logRecord_shape Nat
      ((newLoggedWithStartTime sampleReq (0 : Nat) 0).hijack (Except.ok ())).1
      "GET" 5 "id").1 (by rfl)
    simpa using h
  · have h := (logRecord_shape Nat (newLoggedWithStartTime sampleReq (0 : Nat) 0)
      "GET" 5 "id").2 (by rfl)
    simpa using h

/-- The optional capability set of a response writer beyond write and
header-set: flushing, close notification, connection hijacking. -/
structure Capabilities where
  flush : Bool
  closeNotify : Bool
  hijack : Bool
deriving DecidableEq, Repr

/-- Modelled from the spec: the capability-preserving wrap (package
responsewriter, WrapForHTTP1Or2, outside src) keeps one wrapper shape per
capability combination of the underlying writer and selects the matching
shape at construction time. -/
inductive WrapperShape where
  | plain
  | flusherOnly
  | closeNotifierOnly
  | hijackerOnly
  | flusherCloseNotifier
  | flusherHijacker
  | closeNotifierHijacker
  | full
deriving DecidableEq, Repr

/-- Modelled from the spec: shape selection from the capability set probed
on the underlying writer at wrap time. -/
def selectWrapperShape (c : Capabilities) : WrapperShape :=
  match c.flush, c.closeNotify, c.hijack with
  | false, false, false => WrapperShape.plain
  | true, false, false => WrapperShape.flusherOnly
  | false, true, false => WrapperShape.closeNotifierOnly
  | false, false, true => WrapperShape.hijackerOnly
  | true, true, false => WrapperShape.flusherCloseNotifier
  | true, false, true => WrapperShape.flusherHijacker
  | false, true, true => WrapperShape.closeNotifierHijacker
  | true, true, true => WrapperShape.full

/-- Modelled from the spec: the capability set each wrapper shape exposes
to capability checks by downstream code. -/
def exposedCapabilities : WrapperShape → Capabilities
  | WrapperShape.plain => ⟨false, false, false⟩
  | WrapperShape.flusherOnly => ⟨true, false, false⟩
  | WrapperShape.closeNotifierOnly => ⟨false, true, false⟩
  | WrapperShape.hijackerOnly => ⟨false, false, true⟩
  | WrapperShape.flusherCloseNotifier => ⟨true, true, false⟩
  | WrapperShape.flusherHijacker => ⟨true, false, true⟩
  | WrapperShape.closeNotifierHijacker => ⟨false, true, true⟩
  | WrapperShape.full => ⟨true, true, true⟩

/-- Modelled from the spec: the capability set of the wrapped writer that
newLoggedWithStartTime returns for an underlying writer with the given
capability set. -/
def wrapForHTTP1Or2 (c : Capabilities) : Capabilities :=
  exposedCapabilities (selectWrapperShape c)

/-- C9: the wrap exposes exactly the capability set of the underlying
writer; in particular a flush and close-notify writer yields a wrapper
with flush and close-notify but not hijack, and adding hijack underneath
yields a wrapper with all three. -/
theorem wrap_preserves_capabilities :
    (∀ c : Capabilities, wrapForHTTP1Or2 c = c) ∧
    (wrapForHTTP1Or2 ⟨true, true, false⟩).flush = true ∧
    (wrapForHTTP1Or2 ⟨true, true, false⟩).closeNotify = true ∧
    (wrapForHTTP1Or2 ⟨true, true, false⟩).hijack = false ∧
    (wrapForHTTP1Or2 ⟨true, true, true⟩).flush = true ∧
    (wrapForHTTP1Or2 ⟨true, true, true⟩).closeNotify = true ∧
    (wrapForHTTP1Or2 ⟨true, true, true⟩).hijack = true := by
  refine ⟨fun c => ?_, rfl, rfl, rfl, rfl, rfl, rfl⟩
  obtain ⟨f, cn, hj⟩ := c
  cases f <;> cases cn <;> cases hj <;> rfl

/-- Helper: no decorator operation resets the hijacked flag. -/
theorem applyOp_hijacked_mono (rl : RespLogger W) (op : Op)
    (h : rl.hijacked = true) : (applyOp rl op).hijacked = true := by
  cases op <;>
    simp only [applyOp, RespLogger.writeHeader, RespLogger.recordStatus, RespLogger.write,
      RespLogger.hijack, RespLogger.addf, RespLogger.addKeyValue, RespLogger.stacktraceWhen] <;>
    (try split_ifs) <;> simp_all

/-- Helper: the hijacked flag survives any operation sequence. -/
theorem applyOps_hijacked_mono (rl : RespLogger W) (ops : List Op)
    (h : rl.hijacked = true) : (applyOps rl ops).hijacked = true := by
  induction ops generalizing rl with
  | nil => exact h
  | cons op ops ih => exact ih _ (applyOp_hijacked_mono rl op h)

/-- C10: Hijack sets the hijacked flag and returns the underlying result
unchanged, even when that result is an error; no operation resets the
flag; and every Log of a hijacked decorator emits the hijacked marker as
the whole variant part of the record, so neither the status nor the
statusStack appears there. -/
theorem hijacked_flag_sticky (W : Type) (rl : RespLogger W) (res : Except String Unit)
    (ops : List Op) (verb : String) (latency : Nat) (auditID : String) :
    ((rl.hijack res).1.hijacked = true) ∧
    ((rl.hijack res).2 = res) ∧
    (rl.hijacked = true → (applyOps rl ops).hijacked = true) ∧
    (rl.hijacked = true →
      rl.logRecord verb latency auditID =
        logHead rl verb latency auditID ++ rl.addedKeyValuePairs ++
          [LogValue.str "hijacked", LogValue.bool true]) :=
  ⟨rfl, rfl, applyOps_hijacked_mono rl ops,
   logRecord_of_hijacked rl verb latency auditID⟩

/-- Witness for C10: after a Hijack whose underlying delegation failed,
further writes leave the flag set and the record still ends in the
hijacked marker. -/
theorem hijacked_flag_sticky_witness :
    (applyOps ((newLoggedWithStartTime sampleReq (0 : Nat) 0).hijack
        (Except.error "hijack failed")).1 [Op.write "b" "s"]).hijacked = true ∧
    ((newLoggedWithStartTime sampleReq (0 : Nat) 0).hijack
        (Except.error "hijack failed")).1.logRecord "GET" 5 "id" =
      logHead ((newLoggedWithStartTime sampleReq (0 : Nat) 0).hijack
          (Except.error "hijack failed")).1 "GET" 5 "id" ++
        ((newLoggedWithStartTime sampleReq (0 : Nat) 0).hijack
          (Except.error "hijack failed")).1.addedKeyValuePairs ++
        [LogValue.str "hijacked", LogValue.bool true] :=
  ⟨(hijacked_flag_sticky Nat ((newLoggedWithStartTime sampleReq (0 : Nat) 0).hijack
        (Except.error "hijack failed")).1 (Except.ok ()) [Op.write "b" "s"]
        "GET" 5 "id").2.2.1 (by rfl),
   (hijacked_flag_sticky Nat ((newLoggedWithStartTime sampleReq (0 : Nat) 0).hijack
        (Except.error "hijack failed")).1 (Except.ok ()) [Op.write "b" "s"]
        "GET" 5 "id").2.2.2 (by rfl)⟩
